import Mathlib

/-!
Shallow embedding of the per-video playback controller in `covid/video.js`.

The controller closed over by the `load` handler is modelled as a state
record `Covid.State`.  JavaScript numbers are modelled by `Covid.JSNum`
(rationals plus the special values `Infinity`, `-Infinity`, `NaN` and
`undefined`, which the code's `isFinite` guard, comparisons and loose `!=`
distinguish).  The debounced seek (`seek_nicely`) is split into its
synchronous body (`seek_nicely`) and the `setTimeout` callback
(`timer_fire`); a debounce timer is pending exactly while `seek_active`
is non-null, which is how the source itself tracks it.
-/

namespace Covid

/-- A JavaScript number value (plus `undefined`, the initial value of
`seek_pending`): a finite rational, `Infinity`, `-Infinity`, or `NaN`. -/
inductive JSNum where
  | num (q : ℚ)
  | posInf
  | negInf
  | nan
  | undef
deriving DecidableEq, Repr

namespace JSNum

/-- JavaScript `isFinite`. -/
def isFinite : JSNum → Bool
  | num _ => true
  | _ => false

/-- JavaScript `<` on numbers: any comparison involving `NaN` (or
`undefined`, which coerces to `NaN`) is false. -/
def lt : JSNum → JSNum → Bool
  | nan, _ => false
  | _, nan => false
  | undef, _ => false
  | _, undef => false
  | num a, num b => decide (a < b)
  | num _, posInf => true
  | num _, negInf => false
  | negInf, num _ => true
  | negInf, posInf => true
  | negInf, negInf => false
  | posInf, _ => false

/-- JavaScript `>` on numbers. -/
def gt (a b : JSNum) : Bool := lt b a

/-- JavaScript loose inequality `!=` between two number-or-undefined
values: `NaN` is unequal to everything, itself included. -/
def jne : JSNum → JSNum → Bool
  | nan, _ => true
  | _, nan => true
  | a, b => decide (a ≠ b)

/-- Multiplication by a positive rational constant (used as `x * 3`). -/
def mulC : JSNum → ℚ → JSNum
  | num q, k => num (q * k)
  | posInf, _ => posInf
  | negInf, _ => negInf
  | _, _ => nan

/-- Division by a positive rational constant (used as `x / 3`). -/
def divC : JSNum → ℚ → JSNum
  | num q, k => num (q / k)
  | posInf, _ => posInf
  | negInf, _ => negInf
  | _, _ => nan

/-- Addition of a rational constant (used as `x + 1.5`). -/
def addC : JSNum → ℚ → JSNum
  | num q, k => num (q + k)
  | posInf, _ => posInf
  | negInf, _ => negInf
  | _, _ => nan

/-- Subtraction of a rational constant (used as `x - 1.5`, `x - 0.2`). -/
def subC : JSNum → ℚ → JSNum
  | num q, k => num (q - k)
  | posInf, _ => posInf
  | negInf, _ => negInf
  | _, _ => nan

/-- JavaScript `Math.floor`. -/
def jfloor : JSNum → JSNum
  | num q => num (⌊q⌋ : ℤ)
  | posInf => posInf
  | negInf => negInf
  | _ => nan

/-- JavaScript `Math.ceil`. -/
def jceil : JSNum → JSNum
  | num q => num (⌈q⌉ : ℤ)
  | posInf => posInf
  | negInf => negInf
  | _ => nan

end JSNum

/-- Which of the optional control elements were found by the
`getElementById` lookups; fixed for the life of one controller. -/
structure Config where
  key_target : Bool
  play_button : Bool
  loop_button : Bool
  rewind_button : Bool
  prev_button : Bool
  next_button : Bool
  forward_button : Bool
  slider_range : Bool
deriving DecidableEq, Repr

/-- The mutable state one controller closure can observe and write:
the media element's fields, the two seek variables, the slider value,
the `seeking`/`looping` CSS-class bits on the (present) buttons, and
whether the key target holds input focus.  `seek_active = none` models
the JavaScript variable holding `null` or `undefined` (the two are
indistinguishable under the code's only test, `seek_active != null`);
a debounce timer is pending exactly while it is `some`. -/
structure State where
  cfg : Config
  currentTime : JSNum
  duration : JSNum
  paused : Bool
  ended : Bool
  loop : Bool
  seek_active : Option JSNum
  seek_pending : JSNum
  sliderValue : JSNum
  rewindSeeking : Bool
  prevSeeking : Bool
  nextSeeking : Bool
  forwardSeeking : Bool
  looping : Bool
  focusedKeyTarget : Bool
deriving DecidableEq, Repr

/-- `current_time()`:
`return seek_active != null ? seek_pending : video.currentTime;` -/
def current_time (s : State) : JSNum :=
  if s.seek_active.isSome then s.seek_pending else s.currentTime

/-- Synchronous body of `seek_nicely(time)`: update the slider display,
then either just record the new pending value (a timer is already
in flight) or pause, apply the seek to the media, and enter the
seeking state (the source also starts the 100 ms timer here; its
callback is `timer_fire` below). -/
def seek_nicely (s : State) (time : JSNum) : State :=
  let s1 := if s.cfg.slider_range then { s with sliderValue := time } else s
  if s1.seek_active.isSome then { s1 with seek_pending := time }
  else
    { s1 with
      paused := true
      currentTime := time
      seek_active := some time
      seek_pending := time }

/-- The `setTimeout` callback inside `seek_nicely`: if the pending value
changed while the timer ran, re-issue the seek with the newer value;
otherwise remove the `seeking` class from every present seek button.
When no timer is pending (`seek_active` null) there is no callback to
run and the state is unchanged. -/
def timer_fire (s : State) : State :=
  match s.seek_active with
  | none => s
  | some a =>
    let changed := JSNum.jne s.seek_pending a
    let s1 := { s with seek_active := none }
    if changed then seek_nicely s1 s1.seek_pending
    else
      { s1 with
        rewindSeeking := if s1.cfg.rewind_button then false else s1.rewindSeeking
        prevSeeking := if s1.cfg.prev_button then false else s1.prevSeeking
        nextSeeking := if s1.cfg.next_button then false else s1.nextSeeking
        forwardSeeking := if s1.cfg.forward_button then false else s1.forwardSeeking }

/-- `if (key_target) key_target.focus();` -/
def focus_key_target (s : State) : State :=
  if s.cfg.key_target then { s with focusedKeyTarget := true } else s

/-- `video.play()`: playback resumes, clearing the paused and ended flags. -/
def media_play (s : State) : State := { s with paused := false, ended := false }

/-- `video.pause()`. -/
def media_pause (s : State) : State := { s with paused := true }

/-- `rewind()`. -/
def rewind (s : State) : State :=
  let s1 := focus_key_target s
  let s2 := if s1.cfg.rewind_button then { s1 with rewindSeeking := true } else s1
  seek_nicely s2 (.num 0)

/-- `play_pause()`: rewind first when within 0.2 s of the end, then play
if paused or ended, else pause. -/
def play_pause (s : State) : State :=
  let s1 := focus_key_target s
  let s2 := if JSNum.gt (current_time s1) (s1.duration.subC (1/5)) then rewind s1 else s1
  if s2.paused || s2.ended then media_play s2 else media_pause s2

/-- `loop_toggle()`. -/
def loop_toggle (s : State) : State :=
  let s1 := focus_key_target s
  let onn := !s1.loop
  let s2 := { s1 with loop := onn }
  let s3 := if onn then media_play s2 else media_pause s2
  let s4 := if s3.cfg.loop_button && !onn then { s3 with looping := false } else s3
  if s4.cfg.loop_button && onn then { s4 with looping := true } else s4

/-- `prev_frame()`: `(Math.ceil(current_time() * 3) - 1.5) / 3`,
clamped to 0 unless strictly above 0.2. -/
def prev_frame (s : State) : State :=
  let s1 := focus_key_target s
  let s2 := if s1.cfg.prev_button then { s1 with prevSeeking := true } else s1
  let prev := (((current_time s2).mulC 3).jceil.subC (3/2)).divC 3
  seek_nicely s2 (if JSNum.gt prev (.num (1/5)) then prev else .num 0)

/-- `next_frame()`: `(Math.floor(current_time() * 3) + 1.5) / 3`,
clamped to the full duration unless strictly below `duration - 0.2`. -/
def next_frame (s : State) : State :=
  let s1 := focus_key_target s
  let s2 := if s1.cfg.next_button then { s1 with nextSeeking := true } else s1
  let next := (((current_time s2).mulC 3).jfloor.addC (3/2)).divC 3
  seek_nicely s2 (if JSNum.lt next (s2.duration.subC (1/5)) then next else s2.duration)

/-- `forward()`: only when the duration is finite. -/
def forward (s : State) : State :=
  let s1 := focus_key_target s
  if s1.duration.isFinite then
    let s2 := if s1.cfg.forward_button then { s1 with forwardSeeking := true } else s1
    seek_nicely s2 s2.duration
  else s1

/-- The slider `input` handler: the user drag puts `v` into the slider,
then the handler calls `seek_nicely(slider_range.value)`.  Only wired
when a slider element exists. -/
def slider_input (s : State) (v : JSNum) : State :=
  if s.cfg.slider_range then
    let s1 := { s with sliderValue := v }
    seek_nicely s1 s1.sliderValue
  else s

/-- Events of the debounce machine alone: a `seek_nicely` request (from
any caller) or the pending debounce timer firing. -/
inductive Ev where
  | req (t : JSNum)
  | fire
deriving DecidableEq, Repr

/-- One debounce-machine step. -/
def step (s : State) : Ev → State
  | .req t => seek_nicely s t
  | .fire => timer_fire s

/-- Run a list of debounce-machine events. -/
def run (s : State) (es : List Ev) : State := es.foldl step s

/-- A list of seek requests for finite times. -/
def reqsOf (ts : List ℚ) : List Ev := ts.map fun q => .req (.num q)

/-- Whether an event, taken in state `s`, executes the clear-busy-markers
branch of the timer callback (timer fires with the pending value
unchanged). -/
def clearsBusy (s : State) : Ev → Bool
  | .req _ => false
  | .fire =>
    match s.seek_active with
    | none => false
    | some a => !(JSNum.jne s.seek_pending a)

/-- How many clear-busy-markers transitions occur along a run. -/
def clearCount : State → List Ev → Nat
  | _, [] => 0
  | s, e :: es => (if clearsBusy s e then 1 else 0) + clearCount (step s e) es

/-- Every externally triggerable action of one controller: the six
operations, a slider input event, and the debounce timer firing. -/
inductive Act where
  | playPauseA
  | loopToggleA
  | rewindA
  | prevFrameA
  | nextFrameA
  | forwardA
  | sliderInputA (v : JSNum)
  | fireA
deriving DecidableEq, Repr

/-- Dispatch one action. -/
def doAct (s : State) : Act → State
  | .playPauseA => play_pause s
  | .loopToggleA => loop_toggle s
  | .rewindA => rewind s
  | .prevFrameA => prev_frame s
  | .nextFrameA => next_frame s
  | .forwardA => forward s
  | .sliderInputA v => slider_input s v
  | .fireA => timer_fire s

end Covid

namespace Covid

theorem lt_num (a b : ℚ) : JSNum.lt (.num a) (.num b) = decide (a < b) := rfl

theorem subC_num (a k : ℚ) : (JSNum.num a).subC k = .num (a - k) := rfl

theorem jne_num (a b : ℚ) : JSNum.jne (.num a) (.num b) = decide (a ≠ b) := by
  rcases eq_or_ne a b with h | h <;> simp [JSNum.jne, h]

theorem seek_nicely_idle (s : State) (t : JSNum) (h : s.seek_active = none) :
    seek_nicely s t =
      { s with
        sliderValue := if s.cfg.slider_range then t else s.sliderValue
        paused := true
        currentTime := t
        seek_active := some t
        seek_pending := t } := by
  by_cases hs : s.cfg.slider_range <;> simp [seek_nicely, hs, h]

theorem seek_nicely_busy (s : State) (t a : JSNum) (h : s.seek_active = some a) :
    seek_nicely s t =
      { s with
        sliderValue := if s.cfg.slider_range then t else s.sliderValue
        seek_pending := t } := by
  by_cases hs : s.cfg.slider_range <;> simp [seek_nicely, hs, h]

theorem timer_fire_clear (s : State) (a : JSNum) (h : s.seek_active = some a)
    (hne : JSNum.jne s.seek_pending a = false) :
    timer_fire s =
      { s with
        seek_active := none
        rewindSeeking := if s.cfg.rewind_button then false else s.rewindSeeking
        prevSeeking := if s.cfg.prev_button then false else s.prevSeeking
        nextSeeking := if s.cfg.next_button then false else s.nextSeeking
        forwardSeeking := if s.cfg.forward_button then false else s.forwardSeeking } := by
  unfold timer_fire
  rw [h]
  simp [hne]

theorem timer_fire_changed (s : State) (a : JSNum) (h : s.seek_active = some a)
    (hne : JSNum.jne s.seek_pending a = true) :
    timer_fire s = seek_nicely { s with seek_active := none } s.seek_pending := by
  unfold timer_fire
  rw [h]
  simp [hne]

/-- A controller discovered with every optional control present; media
10 s long, paused at the start, no seek in flight. -/
def baseSt : State :=
  { cfg := ⟨true, true, true, true, true, true, true, true⟩
    currentTime := .num 0
    duration := .num 10
    paused := true
    ended := false
    loop := false
    seek_active := none
    seek_pending := .undef
    sliderValue := .num 0
    rewindSeeking := false
    prevSeeking := false
    nextSeeking := false
    forwardSeeking := false
    looping := false
    focusedKeyTarget := false }

theorem forward_nonfinite_eq (s : State) (h : s.duration.isFinite = false) :
    forward s = { s with focusedKeyTarget := s.cfg.key_target || s.focusedKeyTarget } := by
  unfold forward focus_key_target
  by_cases hk : s.cfg.key_target <;> simp [hk, h]

/-- C10: `forward()` on media with non-finite duration changes nothing but
input focus: the key-focus target, when present, receives focus before the
finiteness guard is evaluated, and every other field of the controller
state — media position, seek state, busy markers, playback flags — is left
exactly as it was. -/
theorem forward_nonfinite_focus_only (s : State) (h : s.duration.isFinite = false) :
    forward s = { s with focusedKeyTarget := s.cfg.key_target || s.focusedKeyTarget } :=
  forward_nonfinite_eq s h

theorem forward_nonfinite_focus_only_witness :
    ({ baseSt with duration := .nan } : State).duration.isFinite = false ∧
    forward { baseSt with duration := .nan } =
      { ({ baseSt with duration := .nan } : State) with focusedKeyTarget := true } := by
  refine ⟨rfl, ?_⟩
  have h := forward_nonfinite_focus_only { baseSt with duration := .nan } rfl
  simpa [baseSt] using h

end Covid

namespace Covid

theorem seek_nicely_pending (s : State) (t : JSNum) :
    (seek_nicely s t).seek_pending = t := by
  rcases h : s.seek_active with _ | a
  · rw [seek_nicely_idle s t h]
  · rw [seek_nicely_busy s t a h]

theorem seek_nicely_isSome (s : State) (t : JSNum) :
    (seek_nicely s t).seek_active.isSome = true := by
  rcases h : s.seek_active with _ | a
  · rw [seek_nicely_idle s t h]
    rfl
  · rw [seek_nicely_busy s t a h]
    simp [h]

theorem seek_nicely_frame (s : State) (t : JSNum) :
    (seek_nicely s t).cfg = s.cfg ∧
    (seek_nicely s t).duration = s.duration ∧
    (seek_nicely s t).rewindSeeking = s.rewindSeeking ∧
    (seek_nicely s t).prevSeeking = s.prevSeeking ∧
    (seek_nicely s t).nextSeeking = s.nextSeeking ∧
    (seek_nicely s t).forwardSeeking = s.forwardSeeking ∧
    (seek_nicely s t).focusedKeyTarget = s.focusedKeyTarget := by
  rcases h : s.seek_active with _ | a
  · rw [seek_nicely_idle s t h]
    exact ⟨rfl, rfl, rfl, rfl, rfl, rfl, rfl⟩
  · rw [seek_nicely_busy s t a h]
    exact ⟨rfl, rfl, rfl, rfl, rfl, rfl, rfl⟩

theorem seek_nicely_cfg (s : State) (t : JSNum) :
    (seek_nicely s t).cfg = s.cfg := (seek_nicely_frame s t).1

theorem seek_nicely_duration (s : State) (t : JSNum) :
    (seek_nicely s t).duration = s.duration := (seek_nicely_frame s t).2.1

theorem seek_nicely_rewindSeeking (s : State) (t : JSNum) :
    (seek_nicely s t).rewindSeeking = s.rewindSeeking := (seek_nicely_frame s t).2.2.1

theorem seek_nicely_prevSeeking (s : State) (t : JSNum) :
    (seek_nicely s t).prevSeeking = s.prevSeeking := (seek_nicely_frame s t).2.2.2.1

theorem seek_nicely_nextSeeking (s : State) (t : JSNum) :
    (seek_nicely s t).nextSeeking = s.nextSeeking := (seek_nicely_frame s t).2.2.2.2.1

theorem seek_nicely_forwardSeeking (s : State) (t : JSNum) :
    (seek_nicely s t).forwardSeeking = s.forwardSeeking := (seek_nicely_frame s t).2.2.2.2.2.1

theorem seek_nicely_focused (s : State) (t : JSNum) :
    (seek_nicely s t).focusedKeyTarget = s.focusedKeyTarget :=
  (seek_nicely_frame s t).2.2.2.2.2.2

/-- C8: `forward()` with a non-finite duration performs no seek — the media
position, the seek-state variables and all busy markers are untouched —
while with a finite duration it marks the forward button (when present)
busy and requests a debounced seek to the full duration. -/
theorem forward_spec (s : State) :
    (s.duration.isFinite = false →
      (forward s).currentTime = s.currentTime ∧
      (forward s).seek_active = s.seek_active ∧
      (forward s).seek_pending = s.seek_pending ∧
      (forward s).rewindSeeking = s.rewindSeeking ∧
      (forward s).prevSeeking = s.prevSeeking ∧
      (forward s).nextSeeking = s.nextSeeking ∧
      (forward s).forwardSeeking = s.forwardSeeking) ∧
    (s.duration.isFinite = true →
      (s.cfg.forward_button = true → (forward s).forwardSeeking = true) ∧
      (forward s).seek_pending = s.duration ∧
      (forward s).seek_active.isSome = true) := by
  constructor
  · intro h
    rw [forward_nonfinite_eq s h]
    exact ⟨rfl, rfl, rfl, rfl, rfl, rfl, rfl⟩
  · intro h
    unfold forward focus_key_target
    by_cases hk : s.cfg.key_target <;> by_cases hf : s.cfg.forward_button <;>
      simp [hk, hf, h, seek_nicely_pending, seek_nicely_isSome, seek_nicely_forwardSeeking]

theorem forward_spec_witness :
    (forward baseSt).seek_pending = baseSt.duration ∧
    (forward baseSt).forwardSeeking = true ∧
    (forward { baseSt with duration := .nan }).seek_active = none := by
  refine ⟨((forward_spec baseSt).2 rfl).2.1, ((forward_spec baseSt).2 rfl).1 rfl, ?_⟩
  rw [((forward_spec { baseSt with duration := .nan }).1 rfl).2.1]
  rfl

end Covid

namespace Covid

theorem focus_key_target_eq (s : State) :
    focus_key_target s =
      { s with focusedKeyTarget := s.cfg.key_target || s.focusedKeyTarget } := by
  unfold focus_key_target
  by_cases hk : s.cfg.key_target <;> simp [hk]

theorem rewind_idle (s : State) (hidle : s.seek_active = none) :
    rewind s =
      { s with
        focusedKeyTarget := s.cfg.key_target || s.focusedKeyTarget
        rewindSeeking := s.cfg.rewind_button || s.rewindSeeking
        sliderValue := if s.cfg.slider_range then .num 0 else s.sliderValue
        paused := true
        currentTime := .num 0
        seek_active := some (.num 0)
        seek_pending := .num 0 } := by
  unfold rewind focus_key_target
  by_cases hk : s.cfg.key_target <;> by_cases hr : s.cfg.rewind_button <;>
    by_cases hs : s.cfg.slider_range <;>
    simp [seek_nicely, hk, hr, hs, hidle]

/-- C9: invoking `rewind()` from Idle when the media is already at time 0
re-applies position 0 to the media, enters the seeking state with pending
target 0 (the all-zero pending target is still recognized as an in-flight
seek), marks the rewind button busy when present, and the next debounce
timer expiry is the clearing transition: it returns to Idle with the busy
markers removed and the position still 0. -/
theorem rewind_at_zero (s : State) (hidle : s.seek_active = none)
    (ht : s.currentTime = .num 0) :
    (rewind s).currentTime = .num 0 ∧
    (rewind s).seek_active = some (.num 0) ∧
    (s.cfg.rewind_button = true → (rewind s).rewindSeeking = true) ∧
    clearsBusy (rewind s) .fire = true ∧
    (timer_fire (rewind s)).seek_active = none ∧
    (s.cfg.rewind_button = true → (timer_fire (rewind s)).rewindSeeking = false) ∧
    (timer_fire (rewind s)).currentTime = .num 0 := by
  have h0 : JSNum.jne (JSNum.num 0) (JSNum.num 0) = false := by simp [jne_num]
  have hrw := rewind_idle s hidle
  refine ⟨?_, ?_, ?_, ?_, ?_, ?_, ?_⟩
  · rw [hrw]
  · rw [hrw]
  · intro hr
    rw [hrw]
    simp [hr]
  · rw [hrw]
    simp [clearsBusy, h0]
  · rw [hrw, timer_fire_clear _ (.num 0) rfl h0]
  · intro hr
    rw [hrw, timer_fire_clear _ (.num 0) rfl h0]
    simp [hr]
  · rw [hrw, timer_fire_clear _ (.num 0) rfl h0]

theorem rewind_at_zero_witness :
    (rewind baseSt).seek_active = some (.num 0) ∧
    (rewind baseSt).rewindSeeking = true ∧
    clearsBusy (rewind baseSt) .fire = true ∧
    (timer_fire (rewind baseSt)).seek_active = none ∧
    (timer_fire (rewind baseSt)).rewindSeeking = false := by
  have h := rewind_at_zero baseSt rfl rfl
  exact ⟨h.2.1, h.2.2.1 rfl, h.2.2.2.1, h.2.2.2.2.1, h.2.2.2.2.2.1 rfl⟩

end Covid

namespace Covid

/-- C4 amended: `play_pause()` from a state with no debounced seek in
flight (Idle): when the current time is within 0.2 s of the duration in
the sense the code tests (`current_time() > duration - 0.2`) it first
rewinds — leaving the media at position 0 with a pending seek to 0 — and
then starts playback (the rewind's internal pause makes the subsequent
toggle play); otherwise it leaves the position and seek state alone and
just toggles: playing exactly when the media was paused or ended.  (While
a seek is in flight the rewind branch does not pause the media, so a
playing medium ends up paused; see the counterexample.) -/
theorem play_pause_spec (s : State) (t d : ℚ) (hidle : s.seek_active = none)
    (ht : s.currentTime = .num t) (hd : s.duration = .num d) :
    (d - 1/5 < t →
      (play_pause s).currentTime = .num 0 ∧
      (play_pause s).seek_active = some (.num 0) ∧
      (play_pause s).paused = false) ∧
    (¬ (d - 1/5 < t) →
      (play_pause s).currentTime = .num t ∧
      (play_pause s).seek_active = none ∧
      (play_pause s).paused = !(s.paused || s.ended)) := by
  have hfidle : (focus_key_target s).seek_active = none := by
    rw [focus_key_target_eq]
    exact hidle
  have hcond : JSNum.gt (current_time (focus_key_target s))
      ((focus_key_target s).duration.subC (1/5)) = decide (d - 1/5 < t) := by
    rw [focus_key_target_eq]
    simp [current_time, hidle, ht, hd, JSNum.gt, lt_num, subC_num]
  constructor
  · intro h
    have hc : JSNum.gt (current_time (focus_key_target s))
        ((focus_key_target s).duration.subC (1/5)) = true := by
      rw [hcond]
      exact decide_eq_true h
    simp only [play_pause, hc, if_true]
    rw [rewind_idle _ hfidle]
    simp [media_play]
  · intro h
    have hc : JSNum.gt (current_time (focus_key_target s))
        ((focus_key_target s).duration.subC (1/5)) = false := by
      rw [hcond]
      exact decide_eq_false h
    simp only [play_pause, hc]
    rw [focus_key_target_eq]
    cases hp : s.paused <;> cases he : s.ended <;>
      simp [media_play, media_pause, hidle, ht, hp, he]

theorem play_pause_spec_witness :
    (10 - 1/5 < (197/20 : ℚ)) ∧
    (play_pause { baseSt with currentTime := .num (197/20) }).currentTime = .num 0 ∧
    (play_pause { baseSt with currentTime := .num (197/20) }).seek_active = some (.num 0) ∧
    (play_pause { baseSt with currentTime := .num (197/20) }).paused = false := by
  have h :=
    (play_pause_spec { baseSt with currentTime := .num (197/20) } (197/20) 10 rfl rfl rfl).1
      (by norm_num)
  exact ⟨by norm_num, h.1, h.2.1, h.2.2⟩

end Covid

namespace Covid

/-- C5: from Idle at time `t` with finite duration `d`, `next_frame()`
requests a debounced seek to `(floor(t*3) + 1.5)/3`, clamped to the full
duration when that value is within 0.2 s of the end (`not < d - 0.2`);
the unclamped value is strictly after `t`. -/
theorem next_frame_spec (s : State) (t d : ℚ) (hidle : s.seek_active = none)
    (ht : s.currentTime = .num t) (hd : s.duration = .num d) :
    (next_frame s).seek_pending =
      (if ((⌊t * 3⌋ : ℚ) + 3/2) / 3 < d - 1/5
        then .num (((⌊t * 3⌋ : ℚ) + 3/2) / 3) else .num d) ∧
    (next_frame s).seek_active.isSome = true ∧
    t < ((⌊t * 3⌋ : ℚ) + 3/2) / 3 := by
  refine ⟨?_, ?_, ?_⟩
  · unfold next_frame focus_key_target
    by_cases hk : s.cfg.key_target <;> by_cases hn : s.cfg.next_button <;>
      simp [hk, hn, current_time, hidle, ht, hd, seek_nicely_pending,
        JSNum.mulC, JSNum.jfloor, JSNum.addC, JSNum.divC, lt_num, JSNum.subC]
  · unfold next_frame focus_key_target
    by_cases hk : s.cfg.key_target <;> by_cases hn : s.cfg.next_button <;>
      simp [hk, hn, seek_nicely_isSome]
  · have h1 : t * 3 < ⌊t * 3⌋ + 1 := Int.lt_floor_add_one (t * 3)
    linarith

theorem next_frame_spec_witness :
    (next_frame { baseSt with currentTime := .num 1 }).seek_pending = .num (3/2) ∧
    (1 : ℚ) < 3/2 := by
  have h := next_frame_spec { baseSt with currentTime := .num 1 } 1 10 rfl rfl rfl
  refine ⟨?_, by norm_num⟩
  rw [h.1]
  norm_num

/-- C6: from Idle at time `t`, `prev_frame()` requests a debounced seek to
`(ceil(t*3) - 1.5)/3`, clamped to 0 when that value is at or below 0.2 s
(`not > 0.2`); the unclamped value is strictly before `t`. -/
theorem prev_frame_spec (s : State) (t : ℚ) (hidle : s.seek_active = none)
    (ht : s.currentTime = .num t) :
    (prev_frame s).seek_pending =
      (if 1/5 < ((⌈t * 3⌉ : ℚ) - 3/2) / 3
        then .num (((⌈t * 3⌉ : ℚ) - 3/2) / 3) else .num 0) ∧
    (prev_frame s).seek_active.isSome = true ∧
    ((⌈t * 3⌉ : ℚ) - 3/2) / 3 < t := by
  refine ⟨?_, ?_, ?_⟩
  · unfold prev_frame focus_key_target
    by_cases hk : s.cfg.key_target <;> by_cases hp : s.cfg.prev_button <;>
      simp [hk, hp, current_time, hidle, ht, seek_nicely_pending,
        JSNum.mulC, JSNum.jceil, JSNum.subC, JSNum.divC, JSNum.gt, lt_num]
  · unfold prev_frame focus_key_target
    by_cases hk : s.cfg.key_target <;> by_cases hp : s.cfg.prev_button <;>
      simp [hk, hp, seek_nicely_isSome]
  · have h1 : (⌈t * 3⌉ : ℚ) < t * 3 + 1 := Int.ceil_lt_add_one (t * 3)
    linarith

theorem prev_frame_spec_witness :
    (prev_frame { baseSt with currentTime := .num 1 }).seek_pending = .num (1/2) ∧
    (1/2 : ℚ) < 1 := by
  have h := prev_frame_spec { baseSt with currentTime := .num 1 } 1 rfl rfl
  refine ⟨?_, by norm_num⟩
  rw [h.1]
  norm_num

end Covid

namespace Covid

theorem prev_frame_idle (s : State) (t : ℚ) (hidle : s.seek_active = none)
    (ht : s.currentTime = .num t) :
    prev_frame s =
      { s with
        focusedKeyTarget := s.cfg.key_target || s.focusedKeyTarget
        prevSeeking := s.cfg.prev_button || s.prevSeeking
        sliderValue :=
          if s.cfg.slider_range then
            (if 1/5 < ((⌈t * 3⌉ : ℚ) - 3/2) / 3
              then .num (((⌈t * 3⌉ : ℚ) - 3/2) / 3) else .num 0)
          else s.sliderValue
        paused := true
        currentTime :=
          if 1/5 < ((⌈t * 3⌉ : ℚ) - 3/2) / 3
            then .num (((⌈t * 3⌉ : ℚ) - 3/2) / 3) else .num 0
        seek_active :=
          some (if 1/5 < ((⌈t * 3⌉ : ℚ) - 3/2) / 3
            then .num (((⌈t * 3⌉ : ℚ) - 3/2) / 3) else .num 0)
        seek_pending :=
          if 1/5 < ((⌈t * 3⌉ : ℚ) - 3/2) / 3
            then .num (((⌈t * 3⌉ : ℚ) - 3/2) / 3) else .num 0 } := by
  unfold prev_frame focus_key_target
  by_cases hk : s.cfg.key_target <;> by_cases hp : s.cfg.prev_button <;>
    by_cases hs : s.cfg.slider_range <;>
    simp [seek_nicely, current_time, hidle, ht, hk, hp, hs,
      JSNum.mulC, JSNum.jceil, JSNum.subC, JSNum.divC, JSNum.gt, lt_num]

/-- C7: from a non-boundary Idle time `t` where neither clamp applies,
`prev_frame()` followed by `next_frame()` — the second computed against the
pending time left by the first — requests a final seek at
`(ceil(t*3) - 1/2)/3`, which is within one one-third-second step of `t`. -/
theorem prev_next_round_trip (s : State) (t d : ℚ) (hidle : s.seek_active = none)
    (ht : s.currentTime = .num t) (hd : s.duration = .num d)
    (hprev : 1/5 < ((⌈t * 3⌉ : ℚ) - 3/2) / 3)
    (hnext : ((⌈t * 3⌉ : ℚ) - 1/2) / 3 < d - 1/5) :
    (next_frame (prev_frame s)).seek_pending = .num (((⌈t * 3⌉ : ℚ) - 1/2) / 3) ∧
    |(((⌈t * 3⌉ : ℚ) - 1/2) / 3) - t| ≤ 1/3 := by
  constructor
  · have e1 : (((⌈t * 3⌉ : ℚ) - 3/2) / 3) * 3 = (⌈t * 3⌉ : ℚ) - 3/2 :=
      div_mul_cancel₀ _ (by norm_num)
    have e2 : ⌊(⌈t * 3⌉ : ℚ) - 3/2⌋ = ⌈t * 3⌉ - 2 := by
      have h : ((⌈t * 3⌉ : ℚ) - 3/2) = (-3/2 : ℚ) + (⌈t * 3⌉ : ℤ) := by ring
      have hf : ⌊(-3/2 : ℚ)⌋ = -2 := by norm_num
      rw [h, Int.floor_add_int, hf]
      omega
    have e3 : ((⌈t * 3⌉ : ℚ) - 2 + 3/2) = (⌈t * 3⌉ : ℚ) - 1/2 := by ring
    rw [prev_frame_idle s t hidle ht]
    simp only [hprev, if_true]
    unfold next_frame focus_key_target
    by_cases hn : s.cfg.next_button <;> by_cases hk : s.cfg.key_target <;>
      simp [hn, hk, current_time, seek_nicely_pending, hd, hnext,
        JSNum.mulC, JSNum.jfloor, JSNum.addC, JSNum.divC, lt_num, JSNum.subC,
        e1, e2, e3] <;>
      (intro hle; linarith)
  · have h1 : t * 3 ≤ (⌈t * 3⌉ : ℚ) := Int.le_ceil (t * 3)
    have h2 : (⌈t * 3⌉ : ℚ) < t * 3 + 1 := Int.ceil_lt_add_one (t * 3)
    rw [abs_le]
    constructor <;> linarith

theorem prev_next_round_trip_witness :
    (next_frame (prev_frame { baseSt with currentTime := .num 1 })).seek_pending =
      .num (5/6) ∧
    |(5/6 : ℚ) - 1| ≤ 1/3 := by
  have h := prev_next_round_trip { baseSt with currentTime := .num 1 } 1 10 rfl rfl rfl
      (by norm_num) (by norm_num)
  constructor
  · rw [h.1]
    norm_num
  · rw [abs_le]
    constructor <;> norm_num

end Covid

namespace Covid

theorem run_nil (s : State) : run s [] = s := rfl

theorem step_req (s : State) (t : JSNum) : step s (.req t) = seek_nicely s t := rfl

theorem step_fire (s : State) : step s .fire = timer_fire s := rfl

theorem run_cons (s : State) (e : Ev) (es : List Ev) :
    run s (e :: es) = run (step s e) es := rfl

theorem run_append (s : State) (l1 l2 : List Ev) :
    run s (l1 ++ l2) = run (run s l1) l2 := List.foldl_append step s l1 l2

theorem clearCount_append (s : State) (l1 l2 : List Ev) :
    clearCount s (l1 ++ l2) = clearCount s l1 + clearCount (run s l1) l2 := by
  induction l1 generalizing s with
  | nil => simp [clearCount, run_nil]
  | cons e l ih => simp [clearCount, run_cons, ih, Nat.add_assoc]

theorem run_reqs (ts : List ℚ) : ∀ (s : State) (a : JSNum), s.seek_active = some a →
    (run s (reqsOf ts)).seek_active = some a ∧
    (run s (reqsOf ts)).currentTime = s.currentTime ∧
    (run s (reqsOf ts)).seek_pending = (ts.map JSNum.num).getLastD s.seek_pending ∧
    clearCount s (reqsOf ts) = 0 := by
  induction ts with
  | nil =>
    intro s a h
    exact ⟨h, rfl, rfl, rfl⟩
  | cons q ts ih =>
    intro s a h
    have hb := seek_nicely_busy s (.num q) a h
    have hstep : run s (reqsOf (q :: ts)) = run (seek_nicely s (.num q)) (reqsOf ts) := rfl
    have hsa : (seek_nicely s (.num q)).seek_active = some a := by
      rw [hb]
      exact h
    obtain ⟨i1, i2, i3, i4⟩ := ih (seek_nicely s (.num q)) a hsa
    refine ⟨by rw [hstep]; exact i1, ?_, ?_, ?_⟩
    · rw [hstep, i2, hb]
    · rw [hstep, i3, seek_nicely_pending]
      simp only [List.map_cons, List.getLastD_cons]
    · have hc : clearCount s (reqsOf (q :: ts)) =
          clearCount (seek_nicely s (.num q)) (reqsOf ts) := by
        show (if clearsBusy s (Ev.req (.num q)) then 1 else 0) +
            clearCount (step s (Ev.req (.num q))) (reqsOf ts) =
          clearCount (seek_nicely s (.num q)) (reqsOf ts)
        rw [show clearsBusy s (Ev.req (.num q)) = false from rfl, step_req]
        simp
      rw [hc, i4]

/-- C1: from any state with a debounce timer pending (whose active seek
value has been applied to the media), any nonempty burst of further finite
seek requests, followed by letting the pending timer fire (and the one
re-issued timer, if the value changed), settles within two fires: the
final applied media position equals the last requested time, and exactly
one clear-busy-markers transition occurs over the whole trace. -/
theorem seek_sequence_settles (s : State) (a : ℚ) (ts : List ℚ) (tl : ℚ)
    (hact : s.seek_active = some (.num a))
    (happ : s.currentTime = .num a)
    (hlast : ts.getLast? = some tl) :
    ∃ k, k ≤ 2 ∧
      (run s (reqsOf ts ++ List.replicate k .fire)).seek_active = none ∧
      (run s (reqsOf ts ++ List.replicate k .fire)).currentTime = .num tl ∧
      clearCount s (reqsOf ts ++ List.replicate k .fire) = 1 := by
  obtain ⟨h1, h2, h3, h4⟩ := run_reqs ts s (.num a) hact
  have hpend : (run s (reqsOf ts)).seek_pending = .num tl := by
    rw [h3, List.getLastD_eq_getLast?, List.getLast?_map, hlast]
    rfl
  by_cases heq : tl = a
  · -- the burst ends on the already-applied value: one fire clears
    have hne : JSNum.jne (run s (reqsOf ts)).seek_pending (.num a) = false := by
      rw [hpend, jne_num]
      simp [heq]
    have hfire := timer_fire_clear (run s (reqsOf ts)) (.num a) h1 hne
    have hcb : clearsBusy (run s (reqsOf ts)) .fire = true := by
      simp [clearsBusy, h1, hne]
    refine ⟨1, by norm_num, ?_, ?_, ?_⟩
    · rw [show List.replicate 1 Ev.fire = [Ev.fire] from rfl, run_append, run_cons,
        run_nil]
      show (timer_fire (run s (reqsOf ts))).seek_active = none
      rw [hfire]
    · rw [show List.replicate 1 Ev.fire = [Ev.fire] from rfl, run_append, run_cons,
        run_nil]
      show (timer_fire (run s (reqsOf ts))).currentTime = .num tl
      rw [hfire]
      show (run s (reqsOf ts)).currentTime = .num tl
      rw [h2, happ, heq]
    · rw [show List.replicate 1 Ev.fire = [Ev.fire] from rfl, clearCount_append, h4]
      simp [clearCount, hcb, step_fire]
  · -- the pending value changed: the first fire re-issues, the second clears
    have hne : JSNum.jne (run s (reqsOf ts)).seek_pending (.num a) = true := by
      rw [hpend, jne_num]
      simp [heq]
    have hcb1 : clearsBusy (run s (reqsOf ts)) .fire = false := by
      simp [clearsBusy, h1, hne]
    have hfire1 := timer_fire_changed (run s (reqsOf ts)) (.num a) h1 hne
    have hidle2 : ({ run s (reqsOf ts) with seek_active := none } : State).seek_active =
        none := rfl
    have hre := seek_nicely_idle { run s (reqsOf ts) with seek_active := none }
      ((run s (reqsOf ts)).seek_pending) hidle2
    have hs2cur : (timer_fire (run s (reqsOf ts))).currentTime = .num tl := by
      rw [hfire1, hre]
      exact hpend
    have hs2act : (timer_fire (run s (reqsOf ts))).seek_active =
        some ((run s (reqsOf ts)).seek_pending) := by
      rw [hfire1, hre]
    have hs2pend : (timer_fire (run s (reqsOf ts))).seek_pending =
        (run s (reqsOf ts)).seek_pending := by
      rw [hfire1, hre]
    have hne2 : JSNum.jne (timer_fire (run s (reqsOf ts))).seek_pending
        ((run s (reqsOf ts)).seek_pending) = false := by
      rw [hs2pend, hpend, jne_num]
      simp
    have hcb2 : clearsBusy (timer_fire (run s (reqsOf ts))) .fire = true := by
      simp [clearsBusy, hs2act, hne2]
    have hfire2 := timer_fire_clear (timer_fire (run s (reqsOf ts)))
      ((run s (reqsOf ts)).seek_pending) hs2act hne2
    refine ⟨2, by norm_num, ?_, ?_, ?_⟩
    · rw [show List.replicate 2 Ev.fire = [Ev.fire, Ev.fire] from rfl, run_append,
        run_cons, run_cons, run_nil]
      show (timer_fire (timer_fire (run s (reqsOf ts)))).seek_active = none
      rw [hfire2]
    · rw [show List.replicate 2 Ev.fire = [Ev.fire, Ev.fire] from rfl, run_append,
        run_cons, run_cons, run_nil]
      show (timer_fire (timer_fire (run s (reqsOf ts)))).currentTime = .num tl
      rw [hfire2]
      show (timer_fire (run s (reqsOf ts))).currentTime = .num tl
      exact hs2cur
    · rw [show List.replicate 2 Ev.fire = [Ev.fire, Ev.fire] from rfl,
        clearCount_append, h4]
      show 0 + clearCount (run s (reqsOf ts)) [Ev.fire, Ev.fire] = 1
      simp [clearCount, hcb1, hcb2, step_fire]

theorem seek_sequence_settles_witness :
    ∃ k, k ≤ 2 ∧
      (run (seek_nicely baseSt (.num 2)) (reqsOf [4, 7] ++ List.replicate k .fire)).seek_active =
        none ∧
      (run (seek_nicely baseSt (.num 2)) (reqsOf [4, 7] ++ List.replicate k .fire)).currentTime =
        .num 7 ∧
      clearCount (seek_nicely baseSt (.num 2)) (reqsOf [4, 7] ++ List.replicate k .fire) = 1 := by
  have hb : (seek_nicely baseSt (.num 2)).seek_active = some (.num 2) := by
    rw [seek_nicely_idle baseSt (.num 2) rfl]
  have hc : (seek_nicely baseSt (.num 2)).currentTime = .num 2 := by
    rw [seek_nicely_idle baseSt (.num 2) rfl]
  exact seek_sequence_settles (seek_nicely baseSt (.num 2)) 2 [4, 7] 7 hb hc rfl

end Covid

namespace Covid

/-- C2: `current_time()` returns the pending seek target whenever a
debounced seek is in flight and the media element's actual reported
position when Idle; in particular, after any burst of requests issued
while Seeking it reports the most recently requested time, never the
media's stale real position. -/
theorem current_time_tracks_pending (s : State) (ts : List ℚ) (tl : ℚ) :
    (s.seek_active = none → current_time s = s.currentTime) ∧
    (s.seek_active.isSome = true → current_time s = s.seek_pending) ∧
    (∀ a, s.seek_active = some a → ts.getLast? = some tl →
      current_time (run s (reqsOf ts)) = .num tl) := by
  refine ⟨?_, ?_, ?_⟩
  · intro h
    simp [current_time, h]
  · intro h
    simp [current_time, h]
  · intro a ha hlast
    obtain ⟨h1, _, h3, _⟩ := run_reqs ts s a ha
    have hct : current_time (run s (reqsOf ts)) = (run s (reqsOf ts)).seek_pending := by
      simp [current_time, h1]
    rw [hct, h3, List.getLastD_eq_getLast?, List.getLast?_map, hlast]
    rfl

theorem current_time_tracks_pending_witness :
    current_time baseSt = baseSt.currentTime ∧
    current_time (run (seek_nicely baseSt (.num 2)) (reqsOf [4, 7])) = .num 7 := by
  refine ⟨(current_time_tracks_pending baseSt [] 0).1 rfl, ?_⟩
  have hb : (seek_nicely baseSt (.num 2)).seek_active = some (.num 2) := by
    rw [seek_nicely_idle baseSt (.num 2) rfl]
  exact (current_time_tracks_pending (seek_nicely baseSt (.num 2)) [4, 7] 7).2.2
    (.num 2) hb rfl

end Covid

namespace Covid

theorem rewind_active (s : State) : (rewind s).seek_active.isSome = true := by
  unfold rewind
  exact seek_nicely_isSome _ _

theorem prev_frame_active (s : State) : (prev_frame s).seek_active.isSome = true := by
  unfold prev_frame
  exact seek_nicely_isSome _ _

theorem next_frame_active (s : State) : (next_frame s).seek_active.isSome = true := by
  unfold next_frame
  exact seek_nicely_isSome _ _

theorem forward_active (s : State) (h : s.duration.isFinite = true) :
    (forward s).seek_active.isSome = true := by
  unfold forward focus_key_target
  by_cases hk : s.cfg.key_target <;> simp [hk, h, seek_nicely_isSome]

theorem rewind_flags (s : State) :
    (rewind s).rewindSeeking = (s.cfg.rewind_button || s.rewindSeeking) ∧
    (rewind s).prevSeeking = s.prevSeeking ∧
    (rewind s).nextSeeking = s.nextSeeking ∧
    (rewind s).forwardSeeking = s.forwardSeeking := by
  unfold rewind focus_key_target
  by_cases hk : s.cfg.key_target <;> by_cases hr : s.cfg.rewind_button <;>
    simp [hk, hr, seek_nicely_rewindSeeking, seek_nicely_prevSeeking,
      seek_nicely_nextSeeking, seek_nicely_forwardSeeking]

theorem prev_frame_flags (s : State) :
    (prev_frame s).rewindSeeking = s.rewindSeeking ∧
    (prev_frame s).prevSeeking = (s.cfg.prev_button || s.prevSeeking) ∧
    (prev_frame s).nextSeeking = s.nextSeeking ∧
    (prev_frame s).forwardSeeking = s.forwardSeeking := by
  unfold prev_frame focus_key_target
  by_cases hk : s.cfg.key_target <;> by_cases hp : s.cfg.prev_button <;>
    simp [hk, hp, seek_nicely_rewindSeeking, seek_nicely_prevSeeking,
      seek_nicely_nextSeeking, seek_nicely_forwardSeeking]

theorem next_frame_flags (s : State) :
    (next_frame s).rewindSeeking = s.rewindSeeking ∧
    (next_frame s).prevSeeking = s.prevSeeking ∧
    (next_frame s).nextSeeking = (s.cfg.next_button || s.nextSeeking) ∧
    (next_frame s).forwardSeeking = s.forwardSeeking := by
  unfold next_frame focus_key_target
  by_cases hk : s.cfg.key_target <;> by_cases hn : s.cfg.next_button <;>
    simp [hk, hn, seek_nicely_rewindSeeking, seek_nicely_prevSeeking,
      seek_nicely_nextSeeking, seek_nicely_forwardSeeking]

theorem forward_flags (s : State) :
    (forward s).rewindSeeking = s.rewindSeeking ∧
    (forward s).prevSeeking = s.prevSeeking ∧
    (forward s).nextSeeking = s.nextSeeking ∧
    (forward s).forwardSeeking =
      ((s.duration.isFinite && s.cfg.forward_button) || s.forwardSeeking) := by
  unfold forward focus_key_target
  by_cases hk : s.cfg.key_target <;> by_cases hf : s.cfg.forward_button <;>
    by_cases hfin : s.duration.isFinite <;>
    simp [hk, hf, hfin, seek_nicely_rewindSeeking, seek_nicely_prevSeeking,
      seek_nicely_nextSeeking, seek_nicely_forwardSeeking]

theorem slider_input_flags (s : State) (v : JSNum) :
    (slider_input s v).rewindSeeking = s.rewindSeeking ∧
    (slider_input s v).prevSeeking = s.prevSeeking ∧
    (slider_input s v).nextSeeking = s.nextSeeking ∧
    (slider_input s v).forwardSeeking = s.forwardSeeking := by
  unfold slider_input
  by_cases hs : s.cfg.slider_range <;>
    simp [hs, seek_nicely_rewindSeeking, seek_nicely_prevSeeking,
      seek_nicely_nextSeeking, seek_nicely_forwardSeeking]

theorem slider_input_active (s : State) (v : JSNum) (hs : s.cfg.slider_range = true) :
    (slider_input s v).seek_active.isSome = true := by
  unfold slider_input
  simp [hs, seek_nicely_isSome]

theorem slider_input_active_preserved (s : State) (v : JSNum)
    (h : s.seek_active.isSome = true) :
    (slider_input s v).seek_active.isSome = true := by
  unfold slider_input
  by_cases hs : s.cfg.slider_range <;> simp [hs, seek_nicely_isSome, h]

theorem loop_toggle_frame (s : State) :
    (loop_toggle s).rewindSeeking = s.rewindSeeking ∧
    (loop_toggle s).prevSeeking = s.prevSeeking ∧
    (loop_toggle s).nextSeeking = s.nextSeeking ∧
    (loop_toggle s).forwardSeeking = s.forwardSeeking ∧
    (loop_toggle s).seek_active = s.seek_active := by
  unfold loop_toggle focus_key_target media_play media_pause
  by_cases hk : s.cfg.key_target <;> by_cases hl : s.cfg.loop_button <;>
    by_cases ho : s.loop <;> simp [hk, hl, ho]

theorem play_pause_flags (s : State) :
    ((play_pause s).rewindSeeking = s.rewindSeeking ∨ (play_pause s).rewindSeeking = true) ∧
    (play_pause s).prevSeeking = s.prevSeeking ∧
    (play_pause s).nextSeeking = s.nextSeeking ∧
    (play_pause s).forwardSeeking = s.forwardSeeking := by
  have hfr := rewind_flags (focus_key_target s)
  have hf1 : (focus_key_target s).rewindSeeking = s.rewindSeeking := by
    rw [focus_key_target_eq]
  have hf2 : (focus_key_target s).prevSeeking = s.prevSeeking := by
    rw [focus_key_target_eq]
  have hf3 : (focus_key_target s).nextSeeking = s.nextSeeking := by
    rw [focus_key_target_eq]
  have hf4 : (focus_key_target s).forwardSeeking = s.forwardSeeking := by
    rw [focus_key_target_eq]
  have hcfg : (focus_key_target s).cfg = s.cfg := by
    rw [focus_key_target_eq]
  have hA : ((rewind (focus_key_target s)).rewindSeeking = s.rewindSeeking ∨
      (rewind (focus_key_target s)).rewindSeeking = true) ∧
      (rewind (focus_key_target s)).prevSeeking = s.prevSeeking ∧
      (rewind (focus_key_target s)).nextSeeking = s.nextSeeking ∧
      (rewind (focus_key_target s)).forwardSeeking = s.forwardSeeking := by
    refine ⟨?_, ?_, ?_, ?_⟩
    · rw [hfr.1, hcfg, hf1]
      cases hb : s.cfg.rewind_button
      · exact Or.inl (by simp)
      · exact Or.inr (by simp)
    · rw [hfr.2.1, hf2]
    · rw [hfr.2.2.1, hf3]
    · rw [hfr.2.2.2, hf4]
  have hB : ((focus_key_target s).rewindSeeking = s.rewindSeeking ∨
      (focus_key_target s).rewindSeeking = true) ∧
      (focus_key_target s).prevSeeking = s.prevSeeking ∧
      (focus_key_target s).nextSeeking = s.nextSeeking ∧
      (focus_key_target s).forwardSeeking = s.forwardSeeking :=
    ⟨Or.inl hf1, hf2, hf3, hf4⟩
  unfold play_pause
  dsimp only
  split_ifs with h1 h2 h2
  · exact hA
  · exact hA
  · exact hB
  · exact hB

theorem play_pause_active (s : State) (h : s.seek_active.isSome = true) :
    (play_pause s).seek_active.isSome = true := by
  have hra := rewind_active (focus_key_target s)
  have hfa : (focus_key_target s).seek_active = s.seek_active := by
    rw [focus_key_target_eq]
  unfold play_pause
  dsimp only
  split_ifs with h1 h2 h2
  · exact hra
  · exact hra
  · have e : (media_play (focus_key_target s)).seek_active = s.seek_active := hfa
    rw [e, h]
  · have e : (media_pause (focus_key_target s)).seek_active = s.seek_active := hfa
    rw [e, h]

end Covid

namespace Covid

theorem timer_fire_cases (s : State) :
    (s.seek_active = none ∧ timer_fire s = s) ∨
    ((timer_fire s).seek_active.isSome = true ∧
      (timer_fire s).rewindSeeking = s.rewindSeeking ∧
      (timer_fire s).prevSeeking = s.prevSeeking ∧
      (timer_fire s).nextSeeking = s.nextSeeking ∧
      (timer_fire s).forwardSeeking = s.forwardSeeking) ∨
    ((timer_fire s).seek_active = none ∧
      (timer_fire s).rewindSeeking = (if s.cfg.rewind_button then false else s.rewindSeeking) ∧
      (timer_fire s).prevSeeking = (if s.cfg.prev_button then false else s.prevSeeking) ∧
      (timer_fire s).nextSeeking = (if s.cfg.next_button then false else s.nextSeeking) ∧
      (timer_fire s).forwardSeeking =
        (if s.cfg.forward_button then false else s.forwardSeeking)) := by
  rcases h : s.seek_active with _ | a
  · left
    refine ⟨rfl, ?_⟩
    unfold timer_fire
    rw [h]
  · cases hch : JSNum.jne s.seek_pending a
    · right; right
      rw [timer_fire_clear s a h hch]
      exact ⟨rfl, rfl, rfl, rfl, rfl⟩
    · right; left
      rw [timer_fire_changed s a h hch]
      exact ⟨seek_nicely_isSome _ _, seek_nicely_rewindSeeking _ _,
        seek_nicely_prevSeeking _ _, seek_nicely_nextSeeking _ _,
        seek_nicely_forwardSeeking _ _⟩

/-- C3 counterexample: from a fresh controller with every control present
(Idle, no markers set), one slider input event yields a reachable state
that is Seeking while every seek button's `seeking` marker is inactive —
the claimed invariant fails for seeks initiated by slider input. -/
theorem slider_seek_no_busy_marker :
    (slider_input baseSt (.num 1)).seek_active.isSome = true ∧
    (slider_input baseSt (.num 1)).rewindSeeking = false ∧
    (slider_input baseSt (.num 1)).prevSeeking = false ∧
    (slider_input baseSt (.num 1)).nextSeeking = false ∧
    (slider_input baseSt (.num 1)).forwardSeeking = false := by
  refine ⟨?_, ?_, ?_, ?_, ?_⟩ <;> rfl

end Covid

namespace Covid

/-- C3 amended: entering Seeking through a seek-button operation activates
that button's `seeking` marker (when the button is present); active markers
persist under every controller action for as long as the state stays
Seeking; every transition from Seeking back to Idle clears the markers of
all present seek buttons; but a seek initiated by a slider input event
enters Seeking while leaving every busy marker exactly as it was. -/
theorem busy_marker_discipline (s : State) (act : Act) (v : JSNum) :
    ((rewind s).seek_active.isSome = true ∧
      (s.cfg.rewind_button = true → (rewind s).rewindSeeking = true)) ∧
    ((prev_frame s).seek_active.isSome = true ∧
      (s.cfg.prev_button = true → (prev_frame s).prevSeeking = true)) ∧
    ((next_frame s).seek_active.isSome = true ∧
      (s.cfg.next_button = true → (next_frame s).nextSeeking = true)) ∧
    (s.duration.isFinite = true →
      (forward s).seek_active.isSome = true ∧
      (s.cfg.forward_button = true → (forward s).forwardSeeking = true)) ∧
    (s.rewindSeeking = true →
      (doAct s act).rewindSeeking = true ∨ (doAct s act).seek_active = none) ∧
    (s.prevSeeking = true →
      (doAct s act).prevSeeking = true ∨ (doAct s act).seek_active = none) ∧
    (s.nextSeeking = true →
      (doAct s act).nextSeeking = true ∨ (doAct s act).seek_active = none) ∧
    (s.forwardSeeking = true →
      (doAct s act).forwardSeeking = true ∨ (doAct s act).seek_active = none) ∧
    (s.seek_active.isSome = true → (doAct s act).seek_active = none →
      (s.cfg.rewind_button = true → (doAct s act).rewindSeeking = false) ∧
      (s.cfg.prev_button = true → (doAct s act).prevSeeking = false) ∧
      (s.cfg.next_button = true → (doAct s act).nextSeeking = false) ∧
      (s.cfg.forward_button = true → (doAct s act).forwardSeeking = false)) ∧
    (s.cfg.slider_range = true →
      (slider_input s v).seek_active.isSome = true ∧
      (slider_input s v).rewindSeeking = s.rewindSeeking ∧
      (slider_input s v).prevSeeking = s.prevSeeking ∧
      (slider_input s v).nextSeeking = s.nextSeeking ∧
      (slider_input s v).forwardSeeking = s.forwardSeeking) := by
  refine ⟨⟨rewind_active s, fun hb => ?_⟩, ⟨prev_frame_active s, fun hb => ?_⟩,
    ⟨next_frame_active s, fun hb => ?_⟩, fun hfin => ⟨forward_active s hfin, fun hb => ?_⟩,
    fun hflag => ?_, fun hflag => ?_, fun hflag => ?_, fun hflag => ?_,
    fun hsome hnone => ?_, fun hs => ?_⟩
  · rw [(rewind_flags s).1, hb]
    simp
  · rw [(prev_frame_flags s).2.1, hb]
    simp
  · rw [(next_frame_flags s).2.2.1, hb]
    simp
  · rw [(forward_flags s).2.2.2, hfin, hb]
    simp
  · -- rewind marker persists while Seeking
    cases act with
    | playPauseA =>
      rcases (play_pause_flags s).1 with h | h
      · exact Or.inl (by rw [show doAct s Act.playPauseA = play_pause s from rfl, h, hflag])
      · exact Or.inl h
    | loopToggleA => exact Or.inl (by rw [show doAct s Act.loopToggleA = loop_toggle s from rfl,
        (loop_toggle_frame s).1, hflag])
    | rewindA => exact Or.inl (by rw [show doAct s Act.rewindA = rewind s from rfl,
        (rewind_flags s).1, hflag]; simp)
    | prevFrameA => exact Or.inl (by rw [show doAct s Act.prevFrameA = prev_frame s from rfl,
        (prev_frame_flags s).1, hflag])
    | nextFrameA => exact Or.inl (by rw [show doAct s Act.nextFrameA = next_frame s from rfl,
        (next_frame_flags s).1, hflag])
    | forwardA => exact Or.inl (by rw [show doAct s Act.forwardA = forward s from rfl,
        (forward_flags s).1, hflag])
    | sliderInputA w => exact Or.inl (by
        rw [show doAct s (Act.sliderInputA w) = slider_input s w from rfl,
          (slider_input_flags s w).1, hflag])
    | fireA =>
      rcases timer_fire_cases s with ⟨_, he⟩ | ⟨_, h1, _, _, _⟩ | ⟨hnone, _, _, _, _⟩
      · exact Or.inl (by rw [show doAct s Act.fireA = timer_fire s from rfl, he, hflag])
      · exact Or.inl (by rw [show doAct s Act.fireA = timer_fire s from rfl, h1, hflag])
      · exact Or.inr hnone
  · -- prev marker persists while Seeking
    cases act with
    | playPauseA => exact Or.inl (by rw [show doAct s Act.playPauseA = play_pause s from rfl,
        (play_pause_flags s).2.1, hflag])
    | loopToggleA => exact Or.inl (by rw [show doAct s Act.loopToggleA = loop_toggle s from rfl,
        (loop_toggle_frame s).2.1, hflag])
    | rewindA => exact Or.inl (by rw [show doAct s Act.rewindA = rewind s from rfl,
        (rewind_flags s).2.1, hflag])
    | prevFrameA => exact Or.inl (by rw [show doAct s Act.prevFrameA = prev_frame s from rfl,
        (prev_frame_flags s).2.1, hflag]; simp)
    | nextFrameA => exact Or.inl (by rw [show doAct s Act.nextFrameA = next_frame s from rfl,
        (next_frame_flags s).2.1, hflag])
    | forwardA => exact Or.inl (by rw [show doAct s Act.forwardA = forward s from rfl,
        (forward_flags s).2.1, hflag])
    | sliderInputA w => exact Or.inl (by
        rw [show doAct s (Act.sliderInputA w) = slider_input s w from rfl,
          (slider_input_flags s w).2.1, hflag])
    | fireA =>
      rcases timer_fire_cases s with ⟨_, he⟩ | ⟨_, _, h1, _, _⟩ | ⟨hnone, _, _, _, _⟩
      · exact Or.inl (by rw [show doAct s Act.fireA = timer_fire s from rfl, he, hflag])
      · exact Or.inl (by rw [show doAct s Act.fireA = timer_fire s from rfl, h1, hflag])
      · exact Or.inr hnone
  · -- next marker persists while Seeking
    cases act with
    | playPauseA => exact Or.inl (by rw [show doAct s Act.playPauseA = play_pause s from rfl,
        (play_pause_flags s).2.2.1, hflag])
    | loopToggleA => exact Or.inl (by rw [show doAct s Act.loopToggleA = loop_toggle s from rfl,
        (loop_toggle_frame s).2.2.1, hflag])
    | rewindA => exact Or.inl (by rw [show doAct s Act.rewindA = rewind s from rfl,
        (rewind_flags s).2.2.1, hflag])
    | prevFrameA => exact Or.inl (by rw [show doAct s Act.prevFrameA = prev_frame s from rfl,
        (prev_frame_flags s).2.2.1, hflag])
    | nextFrameA => exact Or.inl (by rw [show doAct s Act.nextFrameA = next_frame s from rfl,
        (next_frame_flags s).2.2.1, hflag]; simp)
    | forwardA => exact Or.inl (by rw [show doAct s Act.forwardA = forward s from rfl,
        (forward_flags s).2.2.1, hflag])
    | sliderInputA w => exact Or.inl (by
        rw [show doAct s (Act.sliderInputA w) = slider_input s w from rfl,
          (slider_input_flags s w).2.2.1, hflag])
    | fireA =>
      rcases timer_fire_cases s with ⟨_, he⟩ | ⟨_, _, _, h1, _⟩ | ⟨hnone, _, _, _, _⟩
      · exact Or.inl (by rw [show doAct s Act.fireA = timer_fire s from rfl, he, hflag])
      · exact Or.inl (by rw [show doAct s Act.fireA = timer_fire s from rfl, h1, hflag])
      · exact Or.inr hnone
  · -- forward marker persists while Seeking
    cases act with
    | playPauseA => exact Or.inl (by rw [show doAct s Act.playPauseA = play_pause s from rfl,
        (play_pause_flags s).2.2.2, hflag])
    | loopToggleA => exact Or.inl (by rw [show doAct s Act.loopToggleA = loop_toggle s from rfl,
        (loop_toggle_frame s).2.2.2.1, hflag])
    | rewindA => exact Or.inl (by rw [show doAct s Act.rewindA = rewind s from rfl,
        (rewind_flags s).2.2.2, hflag])
    | prevFrameA => exact Or.inl (by rw [show doAct s Act.prevFrameA = prev_frame s from rfl,
        (prev_frame_flags s).2.2.2, hflag])
    | nextFrameA => exact Or.inl (by rw [show doAct s Act.nextFrameA = next_frame s from rfl,
        (next_frame_flags s).2.2.2, hflag])
    | forwardA => exact Or.inl (by rw [show doAct s Act.forwardA = forward s from rfl,
        (forward_flags s).2.2.2, hflag]; simp)
    | sliderInputA w => exact Or.inl (by
        rw [show doAct s (Act.sliderInputA w) = slider_input s w from rfl,
          (slider_input_flags s w).2.2.2, hflag])
    | fireA =>
      rcases timer_fire_cases s with ⟨_, he⟩ | ⟨_, _, _, _, h1⟩ | ⟨hnone, _, _, _, _⟩
      · exact Or.inl (by rw [show doAct s Act.fireA = timer_fire s from rfl, he, hflag])
      · exact Or.inl (by rw [show doAct s Act.fireA = timer_fire s from rfl, h1, hflag])
      · exact Or.inr hnone
  · -- markers clear exactly at the transition back to Idle
    cases act with
    | playPauseA =>
      exfalso
      have hx := play_pause_active s hsome
      rw [show doAct s Act.playPauseA = play_pause s from rfl] at hnone
      rw [hnone] at hx
      simp at hx
    | loopToggleA =>
      exfalso
      have hx := (loop_toggle_frame s).2.2.2.2
      rw [show doAct s Act.loopToggleA = loop_toggle s from rfl] at hnone
      rw [hnone] at hx
      rw [← hx] at hsome
      simp at hsome
    | rewindA =>
      exfalso
      have hx := rewind_active s
      rw [show doAct s Act.rewindA = rewind s from rfl] at hnone
      rw [hnone] at hx
      simp at hx
    | prevFrameA =>
      exfalso
      have hx := prev_frame_active s
      rw [show doAct s Act.prevFrameA = prev_frame s from rfl] at hnone
      rw [hnone] at hx
      simp at hx
    | nextFrameA =>
      exfalso
      have hx := next_frame_active s
      rw [show doAct s Act.nextFrameA = next_frame s from rfl] at hnone
      rw [hnone] at hx
      simp at hx
    | forwardA =>
      exfalso
      rw [show doAct s Act.forwardA = forward s from rfl] at hnone
      cases hfin : s.duration.isFinite
      · have e : (forward s).seek_active = s.seek_active := by
          rw [forward_nonfinite_eq s hfin]
        rw [hnone] at e
        rw [← e] at hsome
        simp at hsome
      · have hx := forward_active s hfin
        rw [hnone] at hx
        simp at hx
    | sliderInputA w =>
      exfalso
      have hx := slider_input_active_preserved s w hsome
      rw [show doAct s (Act.sliderInputA w) = slider_input s w from rfl] at hnone
      rw [hnone] at hx
      simp at hx
    | fireA =>
      rcases timer_fire_cases s with ⟨hn, _⟩ | ⟨h1, _, _, _, _⟩ | ⟨_, c1, c2, c3, c4⟩
      · rw [hn] at hsome
        simp at hsome
      · rw [show doAct s Act.fireA = timer_fire s from rfl] at hnone
        rw [hnone] at h1
        simp at h1
      · refine ⟨fun hb => ?_, fun hb => ?_, fun hb => ?_, fun hb => ?_⟩
        · rw [show doAct s Act.fireA = timer_fire s from rfl, c1, hb]
          simp
        · rw [show doAct s Act.fireA = timer_fire s from rfl, c2, hb]
          simp
        · rw [show doAct s Act.fireA = timer_fire s from rfl, c3, hb]
          simp
        · rw [show doAct s Act.fireA = timer_fire s from rfl, c4, hb]
          simp
  · -- slider input enters Seeking without touching any marker
    exact ⟨slider_input_active s v hs, (slider_input_flags s v).1,
      (slider_input_flags s v).2.1, (slider_input_flags s v).2.2.1,
      (slider_input_flags s v).2.2.2⟩

end Covid

namespace Covid

theorem busy_marker_discipline_witness :
    (rewind baseSt).rewindSeeking = true ∧
    (timer_fire (rewind baseSt)).rewindSeeking = false ∧
    (slider_input baseSt (.num 1)).seek_active.isSome = true ∧
    (slider_input baseSt (.num 1)).rewindSeeking = baseSt.rewindSeeking := by
  have hnone : (doAct (rewind baseSt) Act.fireA).seek_active = none := by
    show (timer_fire (rewind baseSt)).seek_active = none
    rw [rewind_idle baseSt rfl, timer_fire_clear _ (.num 0) rfl (by simp [jne_num])]
  refine ⟨(busy_marker_discipline baseSt Act.fireA (.num 1)).1.2 rfl, ?_, ?_, ?_⟩
  · exact ((busy_marker_discipline (rewind baseSt) Act.fireA
      (.num 1)).2.2.2.2.2.2.2.2.1 (rewind_active baseSt) hnone).1 rfl
  · exact ((busy_marker_discipline baseSt Act.fireA (.num 1)).2.2.2.2.2.2.2.2.2 rfl).1
  · exact ((busy_marker_discipline baseSt Act.fireA (.num 1)).2.2.2.2.2.2.2.2.2 rfl).2.1

end Covid

namespace Covid

/-- A reachable Seeking-and-playing state: from a fresh all-controls
controller, drag the slider to 5 s (debounced seek applied, timer pending),
toggle looping on (which starts playback mid-debounce), then drag the
slider to 9.85 s (only the pending target moves). -/
def playingSeek : State :=
  slider_input (loop_toggle (slider_input baseSt (.num 5))) (.num (197/20))

/-- C4 counterexample: the claim fails outside Idle.  In the reachable
state `playingSeek` the reported current time is 9.85 s of a 10 s medium,
yet `play_pause()` pauses instead of starting playback, and the media
position stays at 5 s rather than being rewound to 0: while a debounced
seek is in flight, `rewind()` takes the busy branch of `seek_nicely`,
which never pauses the media and only replaces the pending target. -/
theorem play_pause_busy_counterexample :
    current_time playingSeek = .num (197/20) ∧
    playingSeek.duration = .num 10 ∧
    (10 - 1/5 : ℚ) < 197/20 ∧
    playingSeek.seek_active.isSome = true ∧
    playingSeek.paused = false ∧
    (play_pause playingSeek).paused = true ∧
    (play_pause playingSeek).currentTime = .num 5 := by
  have h1 : playingSeek =
      { cfg := ⟨true, true, true, true, true, true, true, true⟩
        currentTime := .num 5
        duration := .num 10
        paused := false
        ended := false
        loop := true
        seek_active := some (.num 5)
        seek_pending := .num (197/20)
        sliderValue := .num (197/20)
        rewindSeeking := false
        prevSeeking := false
        nextSeeking := false
        forwardSeeking := false
        looping := true
        focusedKeyTarget := true } := by
    simp [playingSeek, slider_input, loop_toggle, seek_nicely, baseSt,
      focus_key_target, media_play, media_pause]
  refine ⟨?_, ?_, by norm_num, ?_, ?_, ?_, ?_⟩
  · rw [h1]
    rfl
  · rw [h1]
  · rw [h1]
    rfl
  · rw [h1]
  · rw [h1]
    norm_num [play_pause, rewind, seek_nicely, focus_key_target, media_play,
      media_pause, current_time, JSNum.gt, lt_num, subC_num]
  · rw [h1]
    norm_num [play_pause, rewind, seek_nicely, focus_key_target, media_play,
      media_pause, current_time, JSNum.gt, lt_num, subC_num]

end Covid
